import Mathlib

/-!
Verification development for the web3Jobs collection scripts.

The repository is a set of batch collectors that fetch vendor records,
canonicalize them into flat rows, and insert them into a store with
duplicate suppression, plus a sentiment enrichment pass and a sequential
orchestrator.  This file gives a shallow embedding of the pieces the
claims are about:

* a JSON value type and the Python-style field access used by
  collect_web3career.py, together with its job-row extraction, the
  ON CONFLICT (job_url) DO NOTHING insert loop and its transaction
  semantics (pending rows, rollback, final commit);
* the cryptojobslist row extraction (title / link / location / salary
  resolution and the is_remote derivation);
* the reddit search-phase batch counting of collect_reddit.py;
* the startup credential checks of collect_reddit.py and
  collect_twitter.py;
* the stage loop of run_all_tasks.py;
* the sentiment pass of process_sentiment.py.
-/

/-! ## String helpers modelling Python primitives -/

/-- Python str.strip: drop leading and trailing whitespace. -/
def pyStrip (s : String) : String :=
  String.mk (((s.toList.dropWhile Char.isWhitespace).reverse.dropWhile Char.isWhitespace).reverse)

/-- Python str.lower, character by character. -/
def lowerStr (s : String) : String :=
  String.mk (s.toList.map Char.toLower)

/-- Python str.startswith, decided on the character lists. -/
def strStartsWith (s p : String) : Bool :=
  decide (p.toList <+: s.toList)

/-! ## JSON values -/

/-- Parsed JSON values, as handed to the collectors by response.json(). -/
inductive Json where
  | null
  | bool (b : Bool)
  | num (n : Int)
  | str (s : String)
  | arr (xs : List Json)
  | obj (kvs : List (String × Json))

mutual

/-- Structural equality of JSON values (the equality the database applies
to the job_url column in the ON CONFLICT check). -/
def Json.eqb : Json → Json → Bool
  | .null, .null => true
  | .bool a, .bool b => a == b
  | .num a, .num b => a == b
  | .str a, .str b => a == b
  | .arr xs, .arr ys => Json.eqbList xs ys
  | .obj xs, .obj ys => Json.eqbObj xs ys
  | _, _ => false

def Json.eqbList : List Json → List Json → Bool
  | [], [] => true
  | x :: xs, y :: ys => Json.eqb x y && Json.eqbList xs ys
  | _, _ => false

def Json.eqbObj : List (String × Json) → List (String × Json) → Bool
  | [], [] => true
  | (k, v) :: xs, (l, w) :: ys => k == l && Json.eqb v w && Json.eqbObj xs ys
  | _, _ => false

end

/-- Whether a JSON value is a dict (Python isinstance(x, dict)). -/
def Json.isObj : Json → Bool
  | .obj _ => true
  | _ => false

/-- First binding of a key in a JSON object body. -/
def jsonLookup : List (String × Json) → String → Option Json
  | [], _ => none
  | (k, v) :: kvs, key => if k = key then some v else jsonLookup kvs key

/-- Python dict.get(key): none when the key is absent, and also when the
stored value is JSON null (json.loads maps null to Python None, which
dict.get cannot distinguish from a missing key). -/
def pyGet (e : Json) (key : String) : Option Json :=
  match e with
  | .obj kvs =>
    match jsonLookup kvs key with
    | some .null => none
    | some v => some v
    | none => none
  | _ => none

/-- Python truthiness of a JSON value. -/
def Json.truthy : Json → Bool
  | .null => false
  | .bool b => b
  | .num n => n != 0
  | .str s => s != ""
  | .arr xs => !xs.isEmpty
  | .obj kvs => !kvs.isEmpty

/-- Python truthiness of a dict.get result (None is falsy). -/
def optTruthy : Option Json → Bool
  | none => false
  | some v => v.truthy

/-! ## The job_postings sink (PostgreSQL, ON CONFLICT (job_url) DO NOTHING)

collect_web3career.py runs every insert of a batch inside one psycopg2
transaction: successful inserts stay pending on the connection, a
per-record exception triggers db_conn.rollback(), and a single
db_conn.commit() after the loop makes the still-pending rows durable. -/

/-- One row of the job_postings table, with the columns the web3career
insert statement fills.  Field values are the raw JSON values the script
extracted (the source passes them to the driver unchanged). -/
structure JobRow where
  title : Json
  companyName : Option Json
  location : Option Json
  salaryRange : Option Json
  tags : Json
  source : String
  jobUrl : Json
  description : Option Json
  externalId : Option Json
  isRemote : Option Bool
  datePostedEpoch : Option Json
  rawResponse : Json

/-- Does some row of the list carry this job_url (the uniqueness check
behind ON CONFLICT (job_url))? -/
def urlConflict (rows : List JobRow) (u : Json) : Bool :=
  rows.any (fun r => Json.eqb r.jobUrl u)

/-- Connection state during a batch: rows already committed by earlier
commits, rows pending in the open transaction, and the two counters the
script reports. -/
structure SinkState where
  committed : List JobRow
  pending : List JobRow
  inserted : Nat
  skipped : Nat

/-- One execution of the insert statement for row r.  failP says whether
the insert raises a non-conflict persistence error for this row; the
except branch then calls db_conn.rollback(), which discards every pending
row of the open transaction, and counts the row as skipped.  A duplicate
job_url is ON CONFLICT DO NOTHING: rowcount 0, counted as skipped.
Otherwise the row joins the pending transaction and inserted_count
increments. -/
def pgTryInsert (failP : JobRow → Bool) (st : SinkState) (r : JobRow) : SinkState :=
  if failP r then
    { st with pending := [], skipped := st.skipped + 1 }
  else if urlConflict st.committed r.jobUrl || urlConflict st.pending r.jobUrl then
    { st with skipped := st.skipped + 1 }
  else
    { st with pending := st.pending ++ [r], inserted := st.inserted + 1 }

/-- db_conn.commit() after the loop: pending rows become durable. -/
def sinkCommit (st : SinkState) : SinkState :=
  { st with committed := st.committed ++ st.pending, pending := [] }

/-- A whole batch of already-extracted rows against a committed store:
the web3career insert loop followed by the single commit. -/
def upsertBatch (failP : JobRow → Bool) (rows : List JobRow) (store : List JobRow) : SinkState :=
  sinkCommit (rows.foldl (pgTryInsert failP) { committed := store, pending := [], inserted := 0, skipped := 0 })

/-! ## collect_web3career.py extraction and processing loop -/

/-- The raw tags_list value, job_entry.get('tags', []): the stored tags
column gets this value unchanged (the [] default when the key is absent,
Python None for a JSON null, else the payload as is). -/
def w3cTagsStored (e : Json) : Json :=
  match e with
  | .obj kvs =>
    match jsonLookup kvs "tags" with
    | some v => v
    | none => .arr []
  | _ => .arr []

/-- How the conditional expression on the tags value behaves:
"... if tags_list else None" first tests truthiness (falsy values give
is_remote None with no iteration), and a truthy value is then iterated
by the comprehension: a JSON array element-wise, a string character-wise
(each character is a str), an object over its keys, while a truthy
number or boolean is not iterable and raises TypeError, which the outer
except catches, aborting the loop and skipping the commit. -/
inductive TagsView where
  | falsy
  | items (tags : List Json)
  | chars (cs : List Char)
  | keys (ks : List String)
  | typeError

/-- Classify the tags_list value of a dict entry as the comprehension at
line 116 sees it. -/
def w3cTagsView (e : Json) : TagsView :=
  match e with
  | .obj kvs =>
    match jsonLookup kvs "tags" with
    | none => .falsy
    | some .null => .falsy
    | some (.bool false) => .falsy
    | some (.bool true) => .typeError
    | some (.num n) => if n = 0 then .falsy else .typeError
    | some (.str s) => if s = "" then .falsy else .chars s.toList
    | some (.arr xs) => if xs.isEmpty then .falsy else .items xs
    | some (.obj kvs2) => if kvs2.isEmpty then .falsy else .keys (kvs2.map Prod.fst)
  | _ => .falsy

/-- Whether evaluating line 116 on this entry raises TypeError. -/
def tagsRaises (e : Json) : Bool :=
  match w3cTagsView e with
  | .typeError => true
  | _ => false

/-- The comprehension [tag.lower() for tag in tags_list if isinstance(tag, str)]
over a JSON array value. -/
def lowerStringTags (tags : List Json) : List String :=
  tags.filterMap (fun t => match t with | .str s => some (lowerStr s) | _ => none)

/-- is_remote = 'remote' in [tag.lower() for tag in tags_list if
isinstance(tag, str)] if tags_list else None, for a list-valued
tags_list. -/
def w3cIsRemote (tags : List Json) : Option Bool :=
  if tags.isEmpty then none
  else some ((lowerStringTags tags).contains "remote")

/-- The is_remote value for each non-raising tags view: None for a falsy
value, the comprehension result for an array, a character or key
iteration for truthy strings and objects (every character and every JSON
object key is a str, so all survive the isinstance filter). -/
def w3cIsRemoteView : TagsView → Option Bool
  | .falsy => none
  | .items xs => w3cIsRemote xs
  | .chars cs => some ((cs.map (fun c => lowerStr (String.mk [c]))).contains "remote")
  | .keys ks => some ((ks.map lowerStr).contains "remote")
  | .typeError => none

/-- The canonical row built for a dict entry (the data_to_insert tuple).
The source applies str() to the external id and json.dumps to the raw
entry; both are stored here as the underlying JSON values since no claim
reads them. -/
def w3cRow (e : Json) : JobRow :=
  { title := (pyGet e "title").getD .null
    companyName := pyGet e "company"
    location := pyGet e "location"
    salaryRange := pyGet e "salary_range"
    tags := w3cTagsStored e
    source := "Web3.Career"
    jobUrl := (pyGet e "apply_url").getD .null
    description := pyGet e "description"
    externalId := pyGet e "id"
    isRemote := w3cIsRemoteView (w3cTagsView e)
    datePostedEpoch := pyGet e "date_epoch"
    rawResponse := e }

/-- The web3career entry loop.  Non-dict entries are skipped; for a dict
entry the whole extraction, including the is_remote expression of line
116, runs before the "if title and apply_url" gate, so a truthy
non-iterable tags value raises TypeError there: the outer except
handler then ends the loop at once with api_error set and the final
commit never runs (the second component reports this abort).  Otherwise
entries failing the gate are skipped and gated entries go to the insert
statement. -/
def w3cLoop (failP : JobRow → Bool) : List Json → SinkState → SinkState × Bool
  | [], st => (st, false)
  | e :: es, st =>
    if !e.isObj then w3cLoop failP es { st with skipped := st.skipped + 1 }
    else if tagsRaises e then (st, true)
    else if optTruthy (pyGet e "title") && optTruthy (pyGet e "apply_url") then
      w3cLoop failP es (pgTryInsert failP st (w3cRow e))
    else w3cLoop failP es { st with skipped := st.skipped + 1 }

/-- The positional shape check on the parsed response: the jobs list is
raw_data[2] when raw_data is a list of length over two whose index-2
element is itself a list; anything else leaves the jobs list empty. -/
def w3cShapeJobs : Json → Option (List Json)
  | .arr xs =>
    match xs[2]? with
    | some (Json.arr js) => some js
    | _ => none
  | _ => none

/-- Outcome of one web3career run after a successful fetch and JSON
parse: the committed store, the two reported counters, the api_error
flag (never set on this path), whether the shape warning printed, and
the process exit status (the script reaches its finally block and ends
without sys.exit on this path, so the interpreter exits 0). -/
structure W3CResult where
  committed : List JobRow
  inserted : Nat
  skipped : Nat
  apiError : Bool
  warnedShape : Bool
  exitCode : Nat

/-- The web3career fetch-and-process stage on a parsed JSON response:
shape check, entry loop, then on a clean run the final commit and the
summary; when the loop aborted with a TypeError the outer except sets
api_error, db_conn.commit() is never reached, and the pending rows are
discarded when the connection closes.  Either way the script reaches its
finally block and ends without sys.exit, so the process exits 0. -/
def w3cProcessRaw (failP : JobRow → Bool) (raw : Json) (store : List JobRow) : W3CResult :=
  let jobsList := (w3cShapeJobs raw).getD []
  let run := w3cLoop failP jobsList { committed := store, pending := [], inserted := 0, skipped := 0 }
  if run.2 then
    { committed := run.1.committed
      inserted := run.1.inserted
      skipped := run.1.skipped
      apiError := true
      warnedShape := (w3cShapeJobs raw).isNone
      exitCode := 0 }
  else
    { committed := (sinkCommit run.1).committed
      inserted := run.1.inserted
      skipped := run.1.skipped
      apiError := false
      warnedShape := (w3cShapeJobs raw).isNone
      exitCode := 0 }

/-! ## scrape_cryptojobslist.py row extraction -/

/-- What the scraper reads off one table row: whether the row is an ad,
the stripped text of the title link and its href when present, the tag
span texts, the stripped text of the located location span when the td
navigation finds one, and the salary span text together with whether its
parent div carried the currency svg. -/
structure CjlRow where
  isAd : Bool
  titleText : Option String
  href : Option String
  tagTexts : List String
  locationSpanText : Option String
  salarySpanText : Option String
  salarySvgOk : Bool

/-- title = title_element.get_text(strip=True) if title_element else 'N/A'. -/
def cjlTitle (row : CjlRow) : String := row.titleText.getD "N/A"

/-- Salary resolution: the span text only when the svg condition matched,
otherwise the 'N/A' sentinel. -/
def cjlSalary (row : CjlRow) : String :=
  match row.salarySpanText with
  | some s => if row.salarySvgOk then s else "N/A"
  | none => "N/A"

/-- relative_link = link_element['href'] if link_element and
link_element.has_attr('href') else None, where link_element is the title
element. -/
def cjlRelativeLink (row : CjlRow) : Option String :=
  match row.titleText, row.href with
  | some _, some r => some r
  | _, _ => none

def cjlBaseUrl : String := "https://cryptojobslist.com"

/-- urllib.parse.urljoin restricted to the cases the scraper meets:
absolute references pass through, anything else is appended to the base. -/
def urljoin (base rel : String) : String :=
  if strStartsWith rel "http://" || strStartsWith rel "https://" then rel else base ++ rel

/-- job_url = urljoin(BASE_URL, relative_link) if relative_link else 'N/A'. -/
def cjlJobUrl (row : CjlRow) : String :=
  match cjlRelativeLink row with
  | some r => if r = "" then "N/A" else urljoin cjlBaseUrl r
  | none => "N/A"

/-- re.sub of a leading whitespace+pin+whitespace run followed by
str.strip: when a location-pin glyph heads the text (after leading
whitespace) it is removed along with the surrounding whitespace. -/
def stripPin (raw : String) : String :=
  let t := raw.toList.dropWhile Char.isWhitespace
  match t with
  | c :: rest => if c = '📍' then pyStrip (String.mk rest) else pyStrip raw
  | [] => pyStrip raw

/-- The location before the Remote-tag fallback: the stripped span text,
guarded against re-reading the salary span, else the 'N/A' sentinel. -/
def cjlRawLocation (row : CjlRow) : String :=
  match row.locationSpanText with
  | some raw => if cjlSalary row = "N/A" ∨ cjlSalary row ≠ raw then stripPin raw else "N/A"
  | none => "N/A"

/-- if location == 'N/A' and 'Remote' in tags_list: location = 'Remote'. -/
def cjlLocation (row : CjlRow) : String :=
  if cjlRawLocation row = "N/A" ∧ row.tagTexts.contains "Remote" then "Remote" else cjlRawLocation row

/-- is_remote = location == 'Remote' or 'Remote' in tags_list. -/
def cjlIsRemote (row : CjlRow) : Bool :=
  decide (cjlLocation row = "Remote") || row.tagTexts.contains "Remote"

/-- Whether the scraper reaches the insert statement for this row:
ad rows are skipped before extraction, and the gate is
"if title != 'N/A' and job_url != 'N/A'". -/
def cjlInsertAttempted (row : CjlRow) : Bool :=
  !row.isAd && decide (cjlTitle row ≠ "N/A") && decide (cjlJobUrl row ≠ "N/A")

/-! ## collect_reddit.py search-phase batch counting

In the keyword-search phase the script tracks unique_ids_in_batch: a
submission whose id already appeared in the same batch is dropped before
the insert attempt and appears in no counter.  The batch then goes to
insert_many(ordered=False); on a clean batch inserted_count grows by the
number of inserted ids, otherwise the raised bulk error lands in the
generic handler, which adds the whole attempted list to skipped_count
while the driver has still inserted the non-duplicate documents. -/

def dedupFirstAux (seen : List String) : List String → List String
  | [] => []
  | x :: xs => if x ∈ seen then dedupFirstAux seen xs else x :: dedupFirstAux (x :: seen) xs

/-- The posts_to_insert list: first occurrence of each submission id, in
order. -/
def dedupFirst (ids : List String) : List String := dedupFirstAux [] ids

/-- One search-phase batch against the store of already-present ids:
returns the new store and the increments of (inserted_count,
skipped_count). -/
def redditSearchBatch (store : List String) (batch : List String) : List String × Nat × Nat :=
  let toIns := dedupFirst batch
  if toIns.isEmpty then (store, 0, 0)
  else if toIns.all (fun i => !store.contains i) then
    (store ++ toIns, toIns.length, 0)
  else
    (store ++ toIns.filter (fun i => !store.contains i), 0, toIns.length)

/-! ## collect_twitter.py tweet batch counting

For each tweet of a response the script checks find_one against the
already-stored documents: a hit counts as skipped, a miss joins
documents_to_insert (the pre-check never sees the batch itself, so
in-batch duplicate ids all pass it).  The batch then goes to
insert_many(ordered=False) against the collection whose compound unique
index on (source, source_specific_id) the reddit collector created: on
a clean batch inserted_count grows by the number of inserted ids, while
a duplicate inside the batch makes the driver insert the first copy of
each id and raise a bulk error that the except branch only prints, so
neither counter is updated for the whole attempted batch. -/

def twitterBatch (store : List String) (batch : List String) : List String × Nat × Nat :=
  if (batch.filter (fun i => !store.contains i)).isEmpty then
    (store, 0, batch.length - (batch.filter (fun i => !store.contains i)).length)
  else if (batch.filter (fun i => !store.contains i)).Nodup then
    (store ++ batch.filter (fun i => !store.contains i),
     (batch.filter (fun i => !store.contains i)).length,
     batch.length - (batch.filter (fun i => !store.contains i)).length)
  else
    (store ++ dedupFirst (batch.filter (fun i => !store.contains i)), 0,
     batch.length - (batch.filter (fun i => !store.contains i)).length)

/-! ## Startup configuration checks of the social collectors -/

/-- Database-side actions a collector performs during startup. -/
inductive DbAction where
  | mongoConnect
  | mongoPing
  | mongoCreateIndex
deriving DecidableEq

/-- Python truthiness of an os.environ.get result. -/
def present : Option String → Bool
  | none => false
  | some s => s != ""

structure RedditEnv where
  mongoUri : Option String
  redditClientId : Option String
  redditClientSecret : Option String
  redditUserAgent : Option String

/-- collect_reddit.py startup: the MONGO_URI check, then the MongoDB
connect, ping and index creation, and only afterwards the check of the
three reddit credentials.  Returns the database actions performed and
some exit code when the script aborts (none when startup completes). -/
def redditStartup (env : RedditEnv) : List DbAction × Option Nat :=
  if !present env.mongoUri then ([], some 1)
  else
    let dbActs := [DbAction.mongoConnect, DbAction.mongoPing, DbAction.mongoCreateIndex]
    if !(present env.redditClientId && present env.redditClientSecret && present env.redditUserAgent) then
      (dbActs, some 1)
    else (dbActs, none)

structure TwitterEnv where
  mongoUri : Option String
  bearerToken : Option String

/-- collect_twitter.py startup: MONGO_URI check, MongoDB connect, ping
and the two index creations, then the TWITTER_BEARER_TOKEN check. -/
def twitterStartup (env : TwitterEnv) : List DbAction × Option Nat :=
  if !present env.mongoUri then ([], some 1)
  else
    let dbActs := [DbAction.mongoConnect, DbAction.mongoPing, DbAction.mongoCreateIndex, DbAction.mongoCreateIndex]
    if !present env.bearerToken then (dbActs, some 1)
    else (dbActs, none)

/-! ## run_all_tasks.py -/

/-- What happens to one stage subprocess. -/
inductive StageOutcome where
  | exited (code : Nat)
  | timedOut
  | launchError
deriving DecidableEq

/-- subprocess.run(..., check=True) succeeds exactly on exit code 0. -/
def stageOk : StageOutcome → Bool
  | .exited 0 => true
  | _ => false

/-- The stage loop: each except branch ends in break, so the stages
actually run are the successful prefix plus the first failing stage. -/
def runStages : List StageOutcome → List StageOutcome
  | [] => []
  | o :: rest => if stageOk o then o :: runStages rest else [o]

/-- The whole runner: the script contains no sys.exit and every
subprocess exception is caught, so after the loop the interpreter always
exits with status 0. -/
def runAllTasks (outs : List StageOutcome) : List StageOutcome × Nat :=
  (runStages outs, 0)

/-! ## process_sentiment.py -/

/-- A VADER polarity score record (the concrete magnitudes are opaque to
the control flow; the analyzer is a parameter below). -/
structure SVal where
  compound : Int
  pos : Int
  neu : Int
  neg : Int
deriving DecidableEq

/-- A social_media_posts document, with the fields the pass touches.
The text field is none when absent or not a string (both fall into the
same guard branch in the source). -/
structure SDoc where
  id : Nat
  text : Option String
  sentiment : Option SVal
  analyzedAt : Option Nat
deriving DecidableEq

/-- doc.get("text", ""). -/
def docText (d : SDoc) : String := (d.text).getD ""

/-- The guard "not text or not isinstance(text, str) or
len(text.strip()) < 5" inverted: the document is analyzed exactly when
this holds. -/
def textEligible (t : String) : Bool :=
  decide (t ≠ "") && decide (5 ≤ (pyStrip t).length)

/-- collection.update_one({_id: i}, ...): rewrite the first document
with the given id. -/
def updateOne (coll : List SDoc) (i : Nat) (f : SDoc → SDoc) : List SDoc :=
  match coll with
  | [] => []
  | d :: ds => if d.id = i then f d :: ds else d :: updateOne ds i f

/-- The enrichment pass: select up to 50 documents with no sentiment
field, and for each one whose text passes the length guard write the
polarity scores and the analysis timestamp back by id. -/
def sentimentPass (analyze : String → SVal) (now : Nat) (coll : List SDoc) : List SDoc :=
  ((coll.filter (fun d => d.sentiment.isNone)).take 50).foldl
    (fun acc d =>
      if textEligible (docText d) then
        updateOne acc d.id (fun doc => { doc with sentiment := some (analyze (docText d)), analyzedAt := some now })
      else acc)
    coll

/-! ## Spec-side definitions

These follow the wording of the specification, for comparison with the
code-derived definitions above. -/

/-- The is_remote rule as the spec words it: true iff the literal tag
"remote" compared case-insensitively is in the tag set, or the resolved
location equals "Remote". -/
def specJobIsRemote (tags : List String) (location : String) : Bool :=
  tags.any (fun t => lowerStr t == "remote") || decide (location = "Remote")

/-- The orchestrator exit rule as the spec words it: the process exit
code reflects overall success or failure. -/
def specOverallExit (outs : List StageOutcome) : Nat :=
  if outs.all stageOk then 0 else 1

/-! ## Concrete inputs used by witnesses and counterexamples -/

/-- A job row with the given title and url and empty optional fields. -/
def mkRow (t u : String) : JobRow :=
  { title := .str t
    companyName := none
    location := none
    salaryRange := none
    tags := .arr []
    source := "Web3.Career"
    jobUrl := .str u
    description := none
    externalId := none
    isRemote := none
    datePostedEpoch := none
    rawResponse := .null }

/-- Ten distinct rows for the batch-rollback scenario. -/
def c3Rows : List JobRow :=
  [mkRow "t1" "u1", mkRow "t2" "u2", mkRow "t3" "u3", mkRow "t4" "u4", mkRow "t5" "u5",
   mkRow "t6" "u6", mkRow "t7" "u7", mkRow "t8" "u8", mkRow "t9" "u9", mkRow "t10" "u10"]

/-- The injected persistence error: the insert of the second row (url u2)
raises a non-conflict exception. -/
def c3Fail (r : JobRow) : Bool := Json.eqb r.jobUrl (.str "u2")

/-- A web3career entry whose location is the string Remote but whose tag
list is absent. -/
def c5Entry : Json :=
  .obj [("title", .str "Solidity Dev"), ("apply_url", .str "https://x.example/a"),
        ("location", .str "Remote")]

/-- A scraped row whose title element is present with blank text and
whose link is a normal relative href. -/
def c4Row : CjlRow :=
  { isAd := false
    titleText := some ""
    href := some "/solidity-dev-acme"
    tagTexts := []
    locationSpanText := none
    salarySpanText := none
    salarySvgOk := false }

/-- A well-shaped web3career response with two clean job entries, for
the counting witness. -/
def c2Raw : Json :=
  .arr [.num 1, .num 2,
        .arr [.obj [("title", .str "T1"), ("apply_url", .str "u1")],
              .obj [("title", .str "T2"), ("apply_url", .str "u2")]]]

/-- A stage list in which the second stage fails: A succeeds, B exits 2,
C, D, E pending. -/
def c6Outcomes : List StageOutcome :=
  [.exited 0, .exited 2, .exited 0, .exited 0, .exited 0]

/-- A small collection for the enrichment-pass witness: one document
already carrying a sentiment value and one with too-short text. -/
def c8Scored : SDoc :=
  { id := 0, text := some "already scored text", sentiment := some ⟨1, 0, 0, 0⟩, analyzedAt := none }

def c8Coll : List SDoc :=
  [c8Scored, { id := 1, text := some "hi", sentiment := none, analyzedAt := none }]

/-! ## Helper lemmas -/

mutual

theorem Json.eqb_refl : (a : Json) → Json.eqb a a = true
  | .null => rfl
  | .bool b => by simp [Json.eqb]
  | .num n => by simp [Json.eqb]
  | .str s => by simp [Json.eqb]
  | .arr xs => by simp [Json.eqb, Json.eqbList_refl xs]
  | .obj kvs => by simp [Json.eqb, Json.eqbObj_refl kvs]

theorem Json.eqbList_refl : (xs : List Json) → Json.eqbList xs xs = true
  | [] => rfl
  | x :: xs => by simp [Json.eqbList, Json.eqb_refl x, Json.eqbList_refl xs]

theorem Json.eqbObj_refl : (kvs : List (String × Json)) → Json.eqbObj kvs kvs = true
  | [] => rfl
  | (k, v) :: xs => by simp [Json.eqbObj, Json.eqb_refl v, Json.eqbObj_refl xs]

end

theorem urlConflict_nil (u : Json) : urlConflict [] u = false := rfl

theorem urlConflict_append (a b : List JobRow) (u : Json) :
    urlConflict (a ++ b) u = (urlConflict a u || urlConflict b u) := by
  simp [urlConflict, List.any_append]

theorem urlConflict_singleton (r : JobRow) (u : Json) :
    urlConflict [r] u = Json.eqb r.jobUrl u := by
  simp [urlConflict]

theorem sinkCommit_inserted (st : SinkState) : (sinkCommit st).inserted = st.inserted := rfl

theorem sinkCommit_skipped (st : SinkState) : (sinkCommit st).skipped = st.skipped := rfl

theorem sinkCommit_committed (st : SinkState) :
    (sinkCommit st).committed = st.committed ++ st.pending := rfl

theorem pgTryInsert_counts (failP : JobRow → Bool) (st : SinkState) (r : JobRow) :
    (pgTryInsert failP st r).inserted + (pgTryInsert failP st r).skipped
      = st.inserted + st.skipped + 1 := by
  unfold pgTryInsert
  split
  · simp +arith
  · split
    · simp +arith
    · simp +arith

theorem w3cLoop_counts (failP : JobRow → Bool) (es : List Json) :
    ∀ st : SinkState, (w3cLoop failP es st).2 = false →
      (w3cLoop failP es st).1.inserted + (w3cLoop failP es st).1.skipped
        = st.inserted + st.skipped + es.length := by
  induction es with
  | nil => intro st _; simp [w3cLoop]
  | cons e es ih =>
    intro st h
    unfold w3cLoop at h ⊢
    by_cases hobj : (!e.isObj) = true
    · simp only [hobj, if_true] at h ⊢
      rw [ih _ h]
      simp +arith [List.length_cons]
    · simp only [hobj, Bool.false_eq_true, if_false] at h ⊢
      by_cases hraise : tagsRaises e = true
      · simp [hraise] at h
      · simp only [hraise, Bool.false_eq_true, if_false] at h ⊢
        by_cases hgate : (optTruthy (pyGet e "title") && optTruthy (pyGet e "apply_url")) = true
        · simp only [hgate, if_true] at h ⊢
          rw [ih _ h, pgTryInsert_counts]
          simp +arith [List.length_cons]
        · simp only [hgate, Bool.false_eq_true, if_false] at h ⊢
          rw [ih _ h]
          simp +arith [List.length_cons]

theorem runStages_ok_app (pre rest : List StageOutcome)
    (h : ∀ s ∈ pre, stageOk s = true) :
    runStages (pre ++ rest) = pre ++ runStages rest := by
  induction pre with
  | nil => simp
  | cons a pre ih =>
    have ha : stageOk a = true := h a (List.mem_cons_self a pre)
    have ih2 := ih (fun s hs => h s (List.mem_cons_of_mem a hs))
    simp [runStages, ha, ih2]

theorem updateOne_getElem (i : Nat) (f : SDoc → SDoc) (d : SDoc) :
    ∀ (l : List SDoc) (k : Nat), l[k]? = some d → d.id ≠ i →
      (updateOne l i f)[k]? = some d := by
  intro l
  induction l with
  | nil => intro k h _; simp at h
  | cons x xs ih =>
    intro k h hne
    cases k with
    | zero =>
      simp only [List.getElem?_cons_zero, Option.some.injEq] at h
      subst h
      unfold updateOne
      rw [if_neg hne]
      simp
    | succ k =>
      simp only [List.getElem?_cons_succ] at h
      unfold updateOne
      split
      · simpa using h
      · simpa using ih k h hne

theorem sentFold_getElem (analyze : String → SVal) (now : Nat) (d : SDoc) (k : Nat) :
    ∀ (ds acc : List SDoc), acc[k]? = some d →
      (∀ d' ∈ ds, textEligible (docText d') = true → d'.id ≠ d.id) →
      (ds.foldl
        (fun acc d' =>
          if textEligible (docText d') then
            updateOne acc d'.id
              (fun doc => { doc with sentiment := some (analyze (docText d')), analyzedAt := some now })
          else acc)
        acc)[k]? = some d := by
  intro ds
  induction ds with
  | nil => intro acc h _; simpa using h
  | cons d' ds ih =>
    intro acc h hne
    simp only [List.foldl]
    by_cases he : textEligible (docText d') = true
    · rw [if_pos he]
      exact ih _ (updateOne_getElem d'.id _ d acc k h (fun hid => hne d' (List.mem_cons_self d' ds) he (hid ▸ rfl))) (fun x hx => hne x (List.mem_cons_of_mem d' hx))
    · rw [if_neg he]
      exact ih acc h (fun x hx => hne x (List.mem_cons_of_mem d' hx))

/-! ## Claims -/

/-- C1: job_url is the sole uniqueness key of the jobs sink.  For two
rows with the same job_url against a store not yet holding that url,
whether in one batch or in two consecutive runs, exactly the first row
ends up stored (the second attempt is a no-op, not an overwrite), with
inserted_count = 1 and skipped_count = 1 over the pair. -/
theorem claim_C1 (r1 r2 : JobRow) (store : List JobRow)
    (hurl : r1.jobUrl = r2.jobUrl)
    (hnew : urlConflict store r1.jobUrl = false) :
    ((upsertBatch (fun _ => false) [r1, r2] store).committed.filter
        (fun r => Json.eqb r.jobUrl r1.jobUrl) = [r1]
      ∧ (upsertBatch (fun _ => false) [r1, r2] store).inserted = 1
      ∧ (upsertBatch (fun _ => false) [r1, r2] store).skipped = 1)
    ∧ ((upsertBatch (fun _ => false) [r2] (upsertBatch (fun _ => false) [r1] store).committed).committed
        = (upsertBatch (fun _ => false) [r1] store).committed
      ∧ (upsertBatch (fun _ => false) [r2] (upsertBatch (fun _ => false) [r1] store).committed).inserted = 0
      ∧ (upsertBatch (fun _ => false) [r2] (upsertBatch (fun _ => false) [r1] store).committed).skipped = 1) := by
  have h2 : urlConflict store r2.jobUrl = false := by rw [← hurl]; exact hnew
  have hc1 : urlConflict [r1] r2.jobUrl = true := by
    rw [urlConflict_singleton, hurl]
    exact Json.eqb_refl _
  have s1 : pgTryInsert (fun _ => false)
      { committed := store, pending := [], inserted := 0, skipped := 0 } r1
      = { committed := store, pending := [r1], inserted := 1, skipped := 0 } := by
    unfold pgTryInsert
    simp [hnew, urlConflict_nil]
  have s2 : pgTryInsert (fun _ => false)
      { committed := store, pending := [r1], inserted := 1, skipped := 0 } r2
      = { committed := store, pending := [r1], inserted := 1, skipped := 1 } := by
    unfold pgTryInsert
    simp [h2, hc1]
  have hbatch : upsertBatch (fun _ => false) [r1, r2] store
      = { committed := store ++ [r1], pending := [], inserted := 1, skipped := 1 } := by
    unfold upsertBatch
    simp only [List.foldl, s1, s2]
    rfl
  have hone : upsertBatch (fun _ => false) [r1] store
      = { committed := store ++ [r1], pending := [], inserted := 1, skipped := 0 } := by
    unfold upsertBatch
    simp only [List.foldl, s1]
    rfl
  have hfilter : (store ++ [r1]).filter (fun r => Json.eqb r.jobUrl r1.jobUrl) = [r1] := by
    rw [List.filter_append]
    have hstore : store.filter (fun r => Json.eqb r.jobUrl r1.jobUrl) = [] := by
      rw [List.filter_eq_nil_iff]
      intro r hr
      have := List.any_eq_false.mp hnew r hr
      simpa using this
    rw [hstore]
    simp [Json.eqb_refl]
  have hs2' : pgTryInsert (fun _ => false)
      { committed := store ++ [r1], pending := [], inserted := 0, skipped := 0 } r2
      = { committed := store ++ [r1], pending := [], inserted := 0, skipped := 1 } := by
    unfold pgTryInsert
    simp [urlConflict_append, h2, hc1, urlConflict_nil]
  have htwo : upsertBatch (fun _ => false) [r2] (store ++ [r1])
      = { committed := store ++ [r1], pending := [], inserted := 0, skipped := 1 } := by
    unfold upsertBatch
    simp only [List.foldl, hs2']
    simp [sinkCommit]
  refine ⟨⟨?_, ?_, ?_⟩, ?_, ?_, ?_⟩
  · rw [hbatch]; exact hfilter
  · rw [hbatch]
  · rw [hbatch]
  · rw [hone]; rw [htwo]
  · rw [hone]; rw [htwo]
  · rw [hone]; rw [htwo]

/-- Witness for C1 at two concrete rows sharing a url. -/
theorem claim_C1_witness :
    ((upsertBatch (fun _ => false) [mkRow "Dev A" "https://j.example/1", mkRow "Dev B" "https://j.example/1"] []).committed.filter
        (fun r => Json.eqb r.jobUrl (mkRow "Dev A" "https://j.example/1").jobUrl) = [mkRow "Dev A" "https://j.example/1"]
      ∧ (upsertBatch (fun _ => false) [mkRow "Dev A" "https://j.example/1", mkRow "Dev B" "https://j.example/1"] []).inserted = 1
      ∧ (upsertBatch (fun _ => false) [mkRow "Dev A" "https://j.example/1", mkRow "Dev B" "https://j.example/1"] []).skipped = 1)
    ∧ ((upsertBatch (fun _ => false) [mkRow "Dev B" "https://j.example/1"]
          (upsertBatch (fun _ => false) [mkRow "Dev A" "https://j.example/1"] []).committed).committed
        = (upsertBatch (fun _ => false) [mkRow "Dev A" "https://j.example/1"] []).committed
      ∧ (upsertBatch (fun _ => false) [mkRow "Dev B" "https://j.example/1"]
          (upsertBatch (fun _ => false) [mkRow "Dev A" "https://j.example/1"] []).committed).inserted = 0
      ∧ (upsertBatch (fun _ => false) [mkRow "Dev B" "https://j.example/1"]
          (upsertBatch (fun _ => false) [mkRow "Dev A" "https://j.example/1"] []).committed).skipped = 1) :=
  claim_C1 (mkRow "Dev A" "https://j.example/1") (mkRow "Dev B" "https://j.example/1") [] rfl rfl

/-- C2 counterexample: in the reddit search phase a batch of two
submissions carrying the same id against an empty store is reported as
inserted_count 1 and skipped_count 0, while two records were attempted,
so inserted + skipped does not equal the number attempted. -/
theorem claim_C2_counterexample :
    (redditSearchBatch [] ["a", "a"]).2.1 = 1
    ∧ (redditSearchBatch [] ["a", "a"]).2.2 = 0
    ∧ (["a", "a"] : List String).length = 2 := by
  refine ⟨rfl, rfl, rfl⟩

/-- C2 amended: for the job collector, inserted_count + skipped_count
equals the number of entries in the fetched jobs list on every run that
does not abort, regardless of non-dict entries, gate failures,
duplicates or injected per-record insert errors; a truthy non-iterable
tags value raises at line 116 instead, aborting the loop with api_error
set and the commit skipped, so the counters stop short.  For the
twitter collector, the totals equal the number of tweets in the batch
exactly when the batch surviving the find_one pre-check has no in-batch
duplicate ids; otherwise the bulk-insert error updates neither counter
and only the pre-check skips are counted.  For the reddit search phase,
the totals equal the number of distinct submission ids in the batch:
in-batch duplicates are dropped before the attempt and never counted. -/
theorem claim_C2_amended :
    (∀ (failP : JobRow → Bool) (raw : Json) (store : List JobRow),
      (w3cProcessRaw failP raw store).apiError = false →
      (w3cProcessRaw failP raw store).inserted + (w3cProcessRaw failP raw store).skipped
        = ((w3cShapeJobs raw).getD []).length)
    ∧ (∀ (store batch : List String),
      (redditSearchBatch store batch).2.1 + (redditSearchBatch store batch).2.2
        = (dedupFirst batch).length)
    ∧ (∀ (store batch : List String),
      ((batch.filter (fun i => !store.contains i)).Nodup →
        (twitterBatch store batch).2.1 + (twitterBatch store batch).2.2 = batch.length)
      ∧ (¬ (batch.filter (fun i => !store.contains i)).Nodup →
        (twitterBatch store batch).2.1 + (twitterBatch store batch).2.2
          = batch.length - (batch.filter (fun i => !store.contains i)).length)) := by
  refine ⟨?_, ?_, ?_⟩
  · intro failP raw store h
    unfold w3cProcessRaw at h ⊢
    by_cases hab : (w3cLoop failP ((w3cShapeJobs raw).getD [])
        { committed := store, pending := [], inserted := 0, skipped := 0 }).2 = true
    · simp [hab] at h
    · have habf : (w3cLoop failP ((w3cShapeJobs raw).getD [])
          { committed := store, pending := [], inserted := 0, skipped := 0 }).2 = false := by
        simpa using hab
      have hc := w3cLoop_counts failP ((w3cShapeJobs raw).getD [])
        { committed := store, pending := [], inserted := 0, skipped := 0 } habf
      simp only [habf, Bool.false_eq_true, if_false]
      simpa using hc
  · intro store batch
    unfold redditSearchBatch
    by_cases h1 : (dedupFirst batch).isEmpty
    · simp [h1, List.isEmpty_iff.mp h1]
    · simp only [h1, Bool.false_eq_true, if_false]
      split
      · simp
      · simp
  · intro store batch
    have hle := List.length_filter_le (fun i => !store.contains i) batch
    constructor
    · intro hnd
      unfold twitterBatch
      by_cases he : (batch.filter (fun i => !store.contains i)).isEmpty
      · have h0 : (batch.filter (fun i => !store.contains i)).length = 0 := by
          rw [List.isEmpty_iff.mp he]
          rfl
        simp only [he, if_true]
        omega
      · simp only [he, Bool.false_eq_true, if_false]
        rw [if_pos hnd]
        simp only []
        omega
    · intro hnd
      have he : (batch.filter (fun i => !store.contains i)).isEmpty = false := by
        cases hempty : (batch.filter (fun i => !store.contains i)).isEmpty
        · rfl
        · exact absurd (by rw [List.isEmpty_iff.mp hempty]; exact List.nodup_nil) hnd
      unfold twitterBatch
      simp only [he, Bool.false_eq_true, if_false]
      rw [if_neg hnd]
      simp

/-- Witness for the amended C2: a clean two-entry jobs run totals two, a
clean twitter batch totals its length, and a twitter batch with an
in-batch duplicate id totals only the pre-check skips. -/
theorem claim_C2_amended_witness :
    (w3cProcessRaw (fun _ => false) c2Raw []).inserted
      + (w3cProcessRaw (fun _ => false) c2Raw []).skipped = 2
    ∧ (twitterBatch [] ["a", "b"]).2.1 + (twitterBatch [] ["a", "b"]).2.2 = 2
    ∧ (twitterBatch [] ["a", "a"]).2.1 + (twitterBatch [] ["a", "a"]).2.2 = 0 :=
  ⟨claim_C2_amended.1 (fun _ => false) c2Raw [] rfl,
   (claim_C2_amended.2.2 [] ["a", "b"]).1 (by decide),
   (claim_C2_amended.2.2 [] ["a", "a"]).2 (by decide)⟩

/-- C3: the injected insert error on the second of ten rows.  The run
reports inserted_count 9 and skipped_count 1, matching the claim, but
the connection-wide rollback of psycopg2 has also discarded the pending
insert of the first row, so only 8 rows are durable after the commit and
none of them carries u1 even though its insert was counted. -/
theorem claim_C3 :
    (upsertBatch c3Fail c3Rows []).inserted = 9
    ∧ (upsertBatch c3Fail c3Rows []).skipped = 1
    ∧ (upsertBatch c3Fail c3Rows []).committed.length = 8
    ∧ (upsertBatch c3Fail c3Rows []).committed.all
        (fun r => !Json.eqb r.jobUrl (Json.str "u1")) = true :=
  ⟨rfl, rfl, rfl, rfl⟩

/-- C10: when the parsed response fails the positional shape check, the
web3career run prints the warning, attempts no insert, leaves the store
unchanged, reports inserted_count 0 and skipped_count 0, keeps api_error
clear, and ends with exit status 0. -/
theorem claim_C10 (failP : JobRow → Bool) (raw : Json) (store : List JobRow)
    (h : w3cShapeJobs raw = none) :
    w3cProcessRaw failP raw store =
      { committed := store, inserted := 0, skipped := 0,
        apiError := false, warnedShape := true, exitCode := 0 } := by
  unfold w3cProcessRaw
  rw [h]
  simp [w3cLoop, sinkCommit]

/-- Witness for C10 at a two-element top-level array. -/
theorem claim_C10_witness :
    w3cProcessRaw (fun _ => false) (.arr [.num 1, .num 2]) [] =
      { committed := [], inserted := 0, skipped := 0,
        apiError := false, warnedShape := true, exitCode := 0 } :=
  claim_C10 (fun _ => false) (.arr [.num 1, .num 2]) [] rfl

theorem urljoin_ne_na (r : String) : urljoin cjlBaseUrl r ≠ "N/A" := by
  unfold urljoin
  split
  · rename_i h
    intro heq
    subst heq
    exact absurd h (by decide)
  · intro heq
    have hlen := congrArg String.length heq
    rw [String.length_append] at hlen
    have hb : cjlBaseUrl.length = 26 := rfl
    have hna : ("N/A" : String).length = 3 := rfl
    rw [hb, hna] at hlen
    omega

/-- C4 counterexample: a scraped row whose title element is present with
blank text is not skipped: the gate passes and the blank-titled record
goes to the insert statement. -/
theorem claim_C4_counterexample :
    cjlTitle c4Row = ""
    ∧ cjlInsertAttempted c4Row = true
    ∧ cjlJobUrl c4Row = "https://cryptojobslist.com/solidity-dev-acme" :=
  ⟨rfl, rfl, rfl⟩

/-- C4 amended: for the web3career collector a missing or blank (falsy)
title or apply url yields a skip with no insert attempted, provided the
extraction itself does not raise: the whole extraction runs before the
gate, so a dict entry whose truthy non-iterable tags value raises at
line 116 aborts the entire run right there, counting nothing.  The
cryptojobslist scraper only skips when the title element is absent
(sentinel N/A) or the link is absent or blank, so a present-but-blank
title text is not skipped. -/
theorem claim_C4_amended :
    (∀ (failP : JobRow → Bool) (es : List Json) (st : SinkState) (e : Json),
      tagsRaises e = false →
      optTruthy (pyGet e "title") = false ∨ optTruthy (pyGet e "apply_url") = false →
      w3cLoop failP (e :: es) st = w3cLoop failP es { st with skipped := st.skipped + 1 })
    ∧ (∀ (failP : JobRow → Bool) (es : List Json) (st : SinkState) (e : Json),
      e.isObj = true → tagsRaises e = true →
      w3cLoop failP (e :: es) st = (st, true))
    ∧ (∀ row : CjlRow,
      cjlInsertAttempted row = true ↔
        row.isAd = false
        ∧ (∃ t, row.titleText = some t ∧ t ≠ "N/A")
        ∧ (∃ r, row.href = some r ∧ r ≠ "")) := by
  refine ⟨?_, ?_, ?_⟩
  · intro failP es st e hr h
    cases he : e.isObj
    · conv_lhs => rw [w3cLoop]
      simp [he]
    · have hgate : (optTruthy (pyGet e "title") && optTruthy (pyGet e "apply_url")) = false := by
        rcases h with h | h <;> simp [h]
      conv_lhs => rw [w3cLoop]
      simp [he, hr, hgate]
  · intro failP es st e hobj hr
    conv_lhs => rw [w3cLoop]
    simp [hobj, hr]
  · intro row
    unfold cjlInsertAttempted cjlTitle cjlJobUrl cjlRelativeLink
    cases had : row.isAd
    · cases ht : row.titleText with
      | none => simp
      | some t =>
        cases hh : row.href with
        | none => simp
        | some r =>
          by_cases hr : r = ""
          · simp [hr]
          · simp [hr, urljoin_ne_na r]
    · simp

/-- Witness for the web3career halves of the amended C4: an entry with
an apply url but no title is skipped with counts moving from 0 to 1,
and an entry with numeric tags aborts the run with nothing counted. -/
theorem claim_C4_amended_witness :
    w3cLoop (fun _ => false) [.obj [("apply_url", .str "https://j.example/2")]]
        { committed := [], pending := [], inserted := 0, skipped := 0 }
      = ({ committed := [], pending := [], inserted := 0, skipped := 1 }, false)
    ∧ w3cLoop (fun _ => false)
        [.obj [("title", .str "Dev"), ("apply_url", .str "u"), ("tags", .num 1)]]
        { committed := [], pending := [], inserted := 0, skipped := 0 }
      = ({ committed := [], pending := [], inserted := 0, skipped := 0 }, true) :=
  ⟨(claim_C4_amended.1 (fun _ => false) []
      { committed := [], pending := [], inserted := 0, skipped := 0 }
      (.obj [("apply_url", .str "https://j.example/2")]) rfl (Or.inl rfl)).trans rfl,
   claim_C4_amended.2.1 (fun _ => false) []
      { committed := [], pending := [], inserted := 0, skipped := 0 }
      (.obj [("title", .str "Dev"), ("apply_url", .str "u"), ("tags", .num 1)]) rfl rfl⟩


/-- C5 counterexample: a web3career entry whose resolved location is the
string Remote and whose tag list is absent gets is_remote NULL, not the
true value the stated rule requires (and not false either). -/
theorem claim_C5_counterexample :
    (w3cRow c5Entry).location = some (.str "Remote")
    ∧ (w3cRow c5Entry).tags = .arr []
    ∧ specJobIsRemote [] "Remote" = true
    ∧ (w3cRow c5Entry).isRemote ≠ some true
    ∧ (w3cRow c5Entry).isRemote ≠ some false :=
  ⟨rfl, rfl, rfl, by decide, by decide⟩

/-- C5 amended: the web3career collector derives is_remote from the tag
list alone, ignoring location: NULL when the list is empty, otherwise
true exactly when some string tag lowercases to "remote".  The
cryptojobslist scraper sets is_remote true exactly when the literal tag
"Remote" (case-sensitively, not case-insensitively) is present or the
location span resolves to "Remote" after the pin strip, subject to the
salary-span guard. -/
theorem claim_C5_amended :
    (∀ tags : List Json, w3cIsRemote tags = some true ↔
      ∃ s, Json.str s ∈ tags ∧ lowerStr s = "remote")
    ∧ (∀ tags : List Json, w3cIsRemote tags = none ↔ tags = [])
    ∧ (∀ row : CjlRow, cjlIsRemote row = true ↔
      row.tagTexts.contains "Remote" = true
      ∨ ∃ raw, row.locationSpanText = some raw
          ∧ (cjlSalary row = "N/A" ∨ cjlSalary row ≠ raw)
          ∧ stripPin raw = "Remote") := by
  refine ⟨?_, ?_, ?_⟩
  · intro tags
    unfold w3cIsRemote
    by_cases h : tags.isEmpty
    · simp [h, List.isEmpty_iff.mp h]
    · simp only [h, Bool.false_eq_true, if_false, Option.some.injEq]
      constructor
      · intro hc
        have hm : "remote" ∈ lowerStringTags tags := by
          simpa using hc
        rcases List.mem_filterMap.mp hm with ⟨x, hx, hfx⟩
        cases x <;> simp at hfx
        next s => exact ⟨s, hx, hfx⟩
      · rintro ⟨s, hs, hl⟩
        have hm : "remote" ∈ lowerStringTags tags :=
          List.mem_filterMap.mpr ⟨.str s, hs, by simp [hl]⟩
        simpa using hm
  · intro tags
    unfold w3cIsRemote
    by_cases h : tags.isEmpty
    · simp [h, List.isEmpty_iff.mp h]
    · simp [h]
      intro hc
      exact absurd (by simp [hc]) h
  · intro row
    unfold cjlIsRemote cjlLocation cjlRawLocation
    by_cases hmem : "Remote" ∈ row.tagTexts
    · have ht : row.tagTexts.contains "Remote" = true := by simpa using hmem
      simp [ht, hmem]
    · have ht : row.tagTexts.contains "Remote" = false := by simpa using hmem
      simp only [ht, Bool.or_false, Bool.false_eq_true, and_false, if_false,
        decide_eq_true_eq]
      cases hl : row.locationSpanText with
      | none => simp
      | some raw =>
        by_cases hsal : cjlSalary row = "N/A" ∨ cjlSalary row ≠ raw
        · simp [hsal]
        · simp [hsal]

/-- C6 counterexample: with a failing second stage the runner halts, yet
its own process exit status is 0, not the overall-failure exit the claim
requires. -/
theorem claim_C6_counterexample :
    c6Outcomes.all stageOk = false
    ∧ (runAllTasks c6Outcomes).2 = 0
    ∧ specOverallExit c6Outcomes ≠ 0 := by
  refine ⟨rfl, rfl, ?_⟩
  decide

/-- C6 amended: the orchestrator process always exits with status 0
whatever the stage outcomes were; consequently its exit status matches
the success-reflecting exit the spec demands exactly when every stage
succeeded.  Stage failure shows only in the printed output and in the
halt of the remaining stages. -/
theorem claim_C6_amended (outs : List StageOutcome) :
    (runAllTasks outs).2 = 0
    ∧ ((runAllTasks outs).2 = specOverallExit outs ↔ outs.all stageOk = true) := by
  refine ⟨rfl, ?_⟩
  unfold runAllTasks specOverallExit
  by_cases h : outs.all stageOk = true
  · simp [h]
  · simp [h]

/-- C7: the stage loop is fail-fast: whenever every stage before b
succeeded and b exits non-zero, times out, or fails to launch, the
stages actually run are exactly the successful prefix plus b, and no
stage after b is ever started. -/
theorem claim_C7 (pre post : List StageOutcome) (b : StageOutcome)
    (hpre : ∀ s ∈ pre, stageOk s = true) (hb : stageOk b = false) :
    runStages (pre ++ b :: post) = pre ++ [b] := by
  rw [runStages_ok_app pre (b :: post) hpre]
  unfold runStages
  rw [hb]
  simp

/-- Witness for C7 at the spec scenario: A succeeds, B times out, and
the three pending stages C, D, E never run. -/
theorem claim_C7_witness :
    runStages [.exited 0, .timedOut, .exited 0, .exited 0, .exited 0]
      = [.exited 0, .timedOut] :=
  claim_C7 [.exited 0] [.exited 0, .exited 0, .exited 0] .timedOut (by decide) rfl

/-- C8: the enrichment pass leaves untouched every document that already
carries a sentiment value, and every document whose text is missing or
whose trimmed text is shorter than 5 characters: such a document is
bit-for-bit unchanged at its position after the pass. -/
theorem claim_C8 (analyze : String → SVal) (now : Nat) (coll : List SDoc) (k : Nat) (d : SDoc)
    (hk : coll[k]? = some d)
    (hnodup : (coll.map SDoc.id).Nodup)
    (hP : d.sentiment.isSome = true ∨ textEligible (docText d) = false) :
    (sentimentPass analyze now coll)[k]? = some d := by
  unfold sentimentPass
  apply sentFold_getElem analyze now d k _ coll hk
  intro d' hd' helig hid
  have hdf : d' ∈ coll.filter (fun d => d.sentiment.isNone) :=
    List.take_subset 50 _ hd'
  have hdm : d' ∈ coll := (List.mem_filter.mp hdf).1
  have hnone : d'.sentiment.isNone = true := by
    simpa using (List.mem_filter.mp hdf).2
  have hdmem : d ∈ coll := List.getElem?_mem hk
  have heqd : d' = d := List.inj_on_of_nodup_map hnodup hdm hdmem hid
  subst heqd
  rcases hP with hP | hP
  · rw [Option.isNone_iff_eq_none] at hnone
    rw [hnone] at hP
    simp at hP
  · rw [helig] at hP
    simp at hP

/-- Witness for C8: the already-scored document of the concrete
collection is unchanged by the pass. -/
theorem claim_C8_witness :
    (sentimentPass (fun _ => ⟨0, 0, 0, 0⟩) 7 c8Coll)[0]? = some c8Scored :=
  claim_C8 (fun _ => ⟨0, 0, 0, 0⟩) 7 c8Coll 0 c8Scored rfl (by decide) (Or.inl rfl)

/-- C9 counterexample: with the store connection string set but every
reddit credential absent, collect_reddit.py does abort with exit 1, but
only after connecting to MongoDB, pinging it and creating the unique
index, so the abort does not happen before all database activity. -/
theorem claim_C9_counterexample :
    (redditStartup ⟨some "mongodb://cluster.example", none, none, none⟩).2 = some 1
    ∧ (redditStartup ⟨some "mongodb://cluster.example", none, none, none⟩).1 ≠ [] := by
  refine ⟨rfl, ?_⟩
  decide

/-- C9 amended: a missing required setting is always fatal (exit 1), and
a missing store connection string aborts before any database activity;
but a missing vendor credential aborts only after the store connection,
ping and index setup have already run. -/
theorem claim_C9_amended :
    (∀ env : RedditEnv, present env.mongoUri = false → redditStartup env = ([], some 1))
    ∧ (∀ env : RedditEnv, present env.mongoUri = true →
        (present env.redditClientId && present env.redditClientSecret
          && present env.redditUserAgent) = false →
        redditStartup env
          = ([DbAction.mongoConnect, DbAction.mongoPing, DbAction.mongoCreateIndex], some 1))
    ∧ (∀ env : TwitterEnv, present env.mongoUri = false → twitterStartup env = ([], some 1))
    ∧ (∀ env : TwitterEnv, present env.mongoUri = true → present env.bearerToken = false →
        twitterStartup env
          = ([DbAction.mongoConnect, DbAction.mongoPing, DbAction.mongoCreateIndex,
              DbAction.mongoCreateIndex], some 1)) := by
  refine ⟨?_, ?_, ?_, ?_⟩
  · intro env h
    unfold redditStartup
    simp [h]
  · intro env h1 h2
    unfold redditStartup
    simp [h1, h2]
  · intro env h
    unfold twitterStartup
    simp [h]
  · intro env h1 h2
    unfold twitterStartup
    simp [h1, h2]

/-- Witness for C9 amended at concrete environments: each missing-setting
configuration aborts with exit 1, with database actions exactly as
described. -/
theorem claim_C9_amended_witness :
    redditStartup ⟨none, some "id", some "sec", some "ua"⟩ = ([], some 1)
    ∧ redditStartup ⟨some "mongodb://m", some "id", none, some "ua"⟩
        = ([DbAction.mongoConnect, DbAction.mongoPing, DbAction.mongoCreateIndex], some 1)
    ∧ twitterStartup ⟨none, some "tok"⟩ = ([], some 1)
    ∧ twitterStartup ⟨some "mongodb://m", none⟩
        = ([DbAction.mongoConnect, DbAction.mongoPing, DbAction.mongoCreateIndex,
            DbAction.mongoCreateIndex], some 1) :=
  ⟨claim_C9_amended.1 _ rfl, claim_C9_amended.2.1 _ rfl rfl,
   claim_C9_amended.2.2.1 _ rfl, claim_C9_amended.2.2.2 _ rfl rfl⟩
